import Mathlib

/-!
Verification of the client-side orchestration layer of the pos-agent
productivity dashboard (src/frontend/src/App.jsx), shallowly embedded in
Lean.  Stateful handlers become explicit state transformers; asynchronous
effects (network requests, setTimeout continuations) are recorded in
explicit effect traces; `localStorage` becomes a key-value map.
-/

namespace PosAgent

/-- A notification record, as constructed by `addNotification` in App.jsx:
`{ id: Date.now(), type, message, time: 'Just now', read: false }`.
The `Date.now()` millisecond timestamp is passed in explicitly as `now`. -/
structure Notification where
  id : Nat
  type : String
  message : String
  time : String
  read : Bool
deriving Repr, DecidableEq

/-- `addNotification(type, message)` from App.jsx: builds the record with
`id = Date.now()`, prepends it (`[newNotif, ...notifications]`) and
truncates with `.slice(0, 20)`. -/
def addNotification (now : Nat) (ntype message : String)
    (notifications : List Notification) : List Notification :=
  ({ id := now, type := ntype, message := message,
     time := "Just now", read := false } :: notifications).take 20

/-- The record `addNotification` builds from one `(now, type, message)`
entry. -/
def mkNotification (e : Nat × String × String) : Notification :=
  { id := e.1, type := e.2.1, message := e.2.2, time := "Just now", read := false }

/-- A sequence of `addNotification` calls, oldest first. -/
def pushAll (entries : List (Nat × String × String))
    (feed : List Notification) : List Notification :=
  entries.foldl (fun f e => addNotification e.1 e.2.1 e.2.2 f) feed

/-- `markNotificationRead(id)` from App.jsx:
`notifications.map(n => n.id === id ? { ...n, read: true } : n)`. -/
def markNotificationRead (id : Nat) (notifications : List Notification) :
    List Notification :=
  notifications.map fun n => if n.id = id then { n with read := true } else n

theorem take_append_take {α : Type} (k j : Nat) (L M : List α) (h : k ≤ j) :
    (L ++ M.take j).take k = (L ++ M).take k := by
  induction L generalizing k with
  | nil =>
      simp only [List.nil_append, List.take_take]
      rw [Nat.min_eq_left h]
  | cons a L ih =>
      cases k with
      | zero => simp
      | succ k =>
          simp only [List.cons_append, List.take_succ_cons]
          rw [ih k (Nat.le_of_succ_le h)]

theorem pushAll_eq_take (entries : List (Nat × String × String))
    (feed : List Notification) (h : feed.length ≤ 20) :
    pushAll entries feed = (entries.reverse.map mkNotification ++ feed).take 20 := by
  induction entries generalizing feed with
  | nil =>
      simp [pushAll, List.take_of_length_le h]
  | cons e es ih =>
      have h1 : (addNotification e.1 e.2.1 e.2.2 feed).length ≤ 20 := by
        simp only [addNotification]
        exact List.length_take_le _ _
      have step : pushAll (e :: es) feed = pushAll es (addNotification e.1 e.2.1 e.2.2 feed) := rfl
      rw [step, ih _ h1]
      show (es.reverse.map mkNotification ++ (mkNotification e :: feed).take 20).take 20 = _
      rw [take_append_take 20 20 _ _ (Nat.le_refl 20)]
      simp [List.append_assoc]

/-- C1: every sequence of `addNotification` calls (starting from the empty
session feed) yields a feed of length at most 20, equal to the
reverse-chronological (newest-first, prepend-before-truncate) listing of
the pushed notifications truncated to the 20 most recent. -/
theorem feed_bounded_and_newest_first (entries : List (Nat × String × String)) :
    (pushAll entries []).length ≤ 20 ∧
      pushAll entries [] = ((entries.map mkNotification).reverse).take 20 := by
  have he : pushAll entries [] = (entries.reverse.map mkNotification ++ []).take 20 :=
    pushAll_eq_take entries [] (by simp)
  rw [List.append_nil] at he
  refine ⟨?_, ?_⟩
  · rw [he]; exact List.length_take_le _ _
  · rw [he, List.map_reverse]

/-- C7: `markNotificationRead` is idempotent, is a no-op when no
notification carries the given id, and rewrites the feed pointwise:
a matching entry gets `read := true` and any other entry is unchanged. -/
theorem markNotificationRead_spec (i : Nat) (feed : List Notification) :
    markNotificationRead i (markNotificationRead i feed) = markNotificationRead i feed
    ∧ ((∀ n ∈ feed, n.id ≠ i) → markNotificationRead i feed = feed)
    ∧ List.Forall₂
        (fun a b => (a.id = i → b = { a with read := true }) ∧ (a.id ≠ i → b = a))
        feed (markNotificationRead i feed) := by
  refine ⟨?_, ?_, ?_⟩
  · simp only [markNotificationRead, List.map_map]
    apply List.map_congr_left
    intro n _
    by_cases h : n.id = i <;> simp [h]
  · intro h
    have : ∀ n ∈ feed, (if n.id = i then { n with read := true } else n) = n := by
      intro n hn
      simp [h n hn]
    calc markNotificationRead i feed
        = feed.map id := List.map_congr_left this
      _ = feed := List.map_id feed
  · induction feed with
    | nil => exact List.Forall₂.nil
    | cons a l ih =>
        refine List.Forall₂.cons ?_ ih
        by_cases h : a.id = i <;> simp [h]

/-- C7 witness: applying the theorem at a concrete feed whose single
notification does not carry the requested id. -/
theorem markNotificationRead_spec_witness :
    markNotificationRead 7
        [{ id := 1, type := "system", message := "m", time := "Just now", read := false }]
      = [{ id := 1, type := "system", message := "m", time := "Just now", read := false }] :=
  (markNotificationRead_spec 7
      [{ id := 1, type := "system", message := "m", time := "Just now", read := false }]).2.1
    (by decide)

/-- The JavaScript `String.prototype.trim()`: strips leading and trailing
whitespace.  Stated over the character list so that it evaluates inside
the kernel. -/
def jsTrim (s : String) : String :=
  ⟨((s.data.dropWhile Char.isWhitespace).reverse.dropWhile Char.isWhitespace).reverse⟩

/-- The parsed body of `POST /process`, i.e. the object `handleSubmit`
names `data` (and stores via `setResponse`): `{ response, agents?, error? }`.
An absent `agents` field is `none`. -/
structure DispatchResult where
  response : String
  agents : Option (List String)
  error : Option String
deriving Repr, DecidableEq

/-- Outcome of one `fetch` + `res.json()` round trip: either parsed data,
or a thrown transport/parse error carrying `error.message`. -/
inductive FetchOutcome (α : Type) where
  | ok (data : α)
  | fail (message : String)
deriving Repr, DecidableEq

/-- The two continuations `handleSubmit` schedules with `setTimeout`. -/
inductive Scheduled where
  | contactRefreshThenNotify
  | fullRefresh
deriving Repr, DecidableEq

/-- The component state touched by `handleSubmit`. -/
structure SubmitState where
  query : String
  response : Option DispatchResult
  notifications : List Notification
  loading : Bool
deriving Repr, DecidableEq

/-- The externally visible effects of one `handleSubmit` call:
whether the `POST /process` request was issued, and the list of
`setTimeout` continuations with their delays in milliseconds. -/
structure SubmitEffects where
  requestIssued : Bool
  sched : List (Nat × Scheduled)
deriving Repr, DecidableEq

/-- `handleSubmit` from App.jsx as a state transformer.  `now` is the
`Date.now()` millisecond of the synchronous notification pushes and
`outcome` the result of the `fetch`/`res.json()` round trip.
Mirrors the source control flow: the `!query.trim()` guard returns before
any effect; on success the result is stored, the `data.agents.forEach`
loop runs `addNotification` once per agent, the input is cleared, a
contact refresh is scheduled at 500 ms when `'contact'` is among the
agents, and a full dashboard refresh is scheduled at 1500 ms; the catch
branch stores an error-shaped result and pushes one `system` notification.
Crucially, `addNotification` closes over the render-time `notifications`
const: every iteration of the forEach computes `[newNotif,
...notifications]` from the same unchanged snapshot, and its value-form
`setNotifications` plus `localStorage.setItem` overwrite the previous
iteration's write.  The fold below therefore ignores its accumulator and
reads `s.notifications` each time — the last agent's push wins, the
earlier activation notifications are lost. -/
def handleSubmit (now : Nat) (outcome : FetchOutcome DispatchResult)
    (s : SubmitState) : SubmitState × SubmitEffects :=
  if jsTrim s.query = "" then (s, { requestIssued := false, sched := [] })
  else
    match outcome with
    | .ok data =>
        let notifs :=
          match data.agents with
          | some ags =>
              if ags ≠ [] then
                ags.foldl
                  (fun _ agent =>
                    addNotification now agent ("✓ " ++ agent ++ " Agent activated")
                      s.notifications)
                  s.notifications
              else s.notifications
          | none => s.notifications
        let isContactAction :=
          match data.agents with
          | some ags => ags.contains "contact"
          | none => false
        let sched :=
          (if isContactAction then [(500, Scheduled.contactRefreshThenNotify)] else [])
            ++ [(1500, Scheduled.fullRefresh)]
        ({ query := "", response := some data, notifications := notifs, loading := false },
         { requestIssued := true, sched := sched })
    | .fail message =>
        ({ s with
            response := some
              { response := "Error processing request", agents := none,
                error := some message },
            notifications :=
              addNotification now "system" ("❌ Error: " ++ message) s.notifications,
            loading := false },
         { requestIssued := true, sched := [] })

/-- C3: on any transport or parse failure, `handleSubmit` returns normally
(it is a total function of the outcome) with an error-shaped result whose
`error` field carries the thrown message, and the feed gains exactly one
`system` notification tagged with the error text; nothing is scheduled. -/
theorem handleSubmit_failure_spec (now : Nat) (message : String) (s : SubmitState)
    (h : jsTrim s.query ≠ "") :
    (handleSubmit now (.fail message) s).1.response
        = some { response := "Error processing request", agents := none,
                 error := some message }
    ∧ (handleSubmit now (.fail message) s).1.notifications
        = addNotification now "system" ("❌ Error: " ++ message) s.notifications
    ∧ (handleSubmit now (.fail message) s).1.notifications.head?
        = some { id := now, type := "system", message := "❌ Error: " ++ message,
                 time := "Just now", read := false }
    ∧ (handleSubmit now (.fail message) s).2.sched = [] := by
  simp [handleSubmit, h, addNotification]

/-- C3 witness: the failure path evaluated at a concrete state. -/
theorem handleSubmit_failure_spec_witness :
    (handleSubmit 5 (.fail "boom")
        { query := "add task", response := none, notifications := [], loading := false }).1.response
      = some { response := "Error processing request", agents := none, error := some "boom" } :=
  (handleSubmit_failure_spec 5 "boom"
      { query := "add task", response := none, notifications := [], loading := false }
      (by decide)).1

/-- C4: evaluating a successful submit whose result involves agents
`["task", "contact"]` at a concrete state.  The two `setTimeout`
continuations are scheduled as the claim says — the isolated contact
refresh plus confirmation at a 500 ms delay and the full dashboard
refresh at a 1500 ms delay — but the stale-closure overwrite inside the
`data.agents.forEach` loop leaves the feed with only the contact
activation notification: the task activation is lost, so exactly one
activation notification, not two, is pushed synchronously. -/
theorem handleSubmit_task_contact_lost_update :
    ((handleSubmit 1000
        (.ok { response := "done", agents := some ["task", "contact"], error := none })
        { query := "add a task and a contact", response := none,
          notifications := [], loading := false }).1.notifications.map
      Notification.message)
      = ["✓ contact Agent activated"]
    ∧ (handleSubmit 1000
        (.ok { response := "done", agents := some ["task", "contact"], error := none })
        { query := "add a task and a contact", response := none,
          notifications := [], loading := false }).2.sched
      = [(500, Scheduled.contactRefreshThenNotify), (1500, Scheduled.fullRefresh)] := by
  constructor
  · rfl
  · rfl

/-- One transcript entry, as built by `handleGroqChat`: the user turn is
`{ role: 'user', content, timestamp }`, the assistant turn additionally
carries `model` and `tokens`.  `content` is `Option` because the assistant
turn copies `data.response`, which a malformed success response may omit
(JS `undefined`). -/
structure ChatMessage where
  role : String
  content : Option String
  timestamp : String
  model : Option String
  tokens : Option Nat
deriving Repr, DecidableEq

/-- The parsed body of `POST /groq/chat`:
`{ success, response?, model?, tokens_used?, error? }`. -/
structure GroqData where
  success : Bool
  response : Option String
  model : Option String
  tokens_used : Option Nat
  error : Option String
deriving Repr, DecidableEq

/-- JavaScript string interpolation of a possibly-undefined value:
`` `${x}` `` prints `undefined` for an absent field. -/
def jsInterp (o : Option String) : String :=
  match o with
  | some s => s
  | none => "undefined"

/-- The component state touched by `handleGroqChat`: the input box, the
in-memory transcript, the persisted copy under `pos_chat_history`
(`none` when the key is absent), the notification feed, and the loading
flag. -/
structure ChatState where
  groqInput : String
  chatHistory : List ChatMessage
  persistedChat : Option (List ChatMessage)
  notifications : List Notification
  groqLoading : Bool
deriving Repr, DecidableEq

/-- `handleGroqChat` from App.jsx as a state transformer.  `sentIso` and
`replyIso` are the two `new Date().toISOString()` wall-clock reads, `now`
the `Date.now()` of the notification push, and `outcome` the
`fetch`/`res.json()` result.  Mirrors the source: the `!groqInput.trim()`
guard returns first; the user turn is appended and persisted optimistically
and the input cleared; on `data.success` the assistant turn (content,
model, token count from the response) is appended and persisted and a
`groq` success notification pushed; on `success: false` or a thrown
transport error only an error notification is pushed.  The returned `Bool`
records whether the `POST /groq/chat` request was issued. -/
def handleGroqChat (sentIso replyIso : String) (now : Nat)
    (outcome : FetchOutcome GroqData) (s : ChatState) : ChatState × Bool :=
  if jsTrim s.groqInput = "" then (s, false)
  else
    let userMessage : ChatMessage :=
      { role := "user", content := some s.groqInput, timestamp := sentIso,
        model := none, tokens := none }
    let updatedHistory := s.chatHistory ++ [userMessage]
    let s1 : ChatState :=
      { s with chatHistory := updatedHistory, persistedChat := some updatedHistory,
               groqInput := "" }
    match outcome with
    | .ok data =>
        if data.success then
          let aiMessage : ChatMessage :=
            { role := "assistant", content := data.response, timestamp := replyIso,
              model := data.model, tokens := data.tokens_used }
          let finalHistory := updatedHistory ++ [aiMessage]
          ({ s1 with chatHistory := finalHistory, persistedChat := some finalHistory,
                     notifications :=
                       addNotification now "groq" "🤖 Martin responded" s1.notifications,
                     groqLoading := false }, true)
        else
          let notifs :=
            addNotification now "groq" ("❌ Error: " ++ jsInterp data.error) s1.notifications
          ({ s1 with notifications := notifs, groqLoading := false }, true)
    | .fail message =>
        let notifs :=
          addNotification now "groq" ("❌ Chat error: " ++ message) s1.notifications
        ({ s1 with notifications := notifs, groqLoading := false }, true)

/-- The user turn `handleGroqChat` builds from the current input. -/
def userTurn (input sentIso : String) : ChatMessage :=
  { role := "user", content := some input, timestamp := sentIso,
    model := none, tokens := none }

/-- An outcome the source treats as a chat failure: a parsed response with
`success` falsy, or a thrown transport/parse error. -/
def isChatFailure : FetchOutcome GroqData → Bool
  | .ok data => !data.success
  | .fail _ => true

/-- The message of the notification the source pushes on each chat failure
branch: `` `❌ Error: ${data.error}` `` and `` `❌ Chat error: ${error.message}` ``. -/
def chatFailureMessage : FetchOutcome GroqData → String
  | .ok data => "❌ Error: " ++ jsInterp data.error
  | .fail message => "❌ Chat error: " ++ message

/-- C2: a chat send whose response has `success: false`, or that fails in
transport, leaves the transcript at exactly the optimistically appended
user turn — length `n + 1`, no assistant turn, and the persisted copy
agrees — and pushes exactly one error notification of kind `groq` onto
the feed. -/
theorem handleGroqChat_failure_spec (sentIso replyIso : String) (now : Nat)
    (outcome : FetchOutcome GroqData) (s : ChatState)
    (hq : jsTrim s.groqInput ≠ "") (hf : isChatFailure outcome = true) :
    (handleGroqChat sentIso replyIso now outcome s).1.chatHistory
        = s.chatHistory ++ [userTurn s.groqInput sentIso]
    ∧ (handleGroqChat sentIso replyIso now outcome s).1.chatHistory.length
        = s.chatHistory.length + 1
    ∧ (handleGroqChat sentIso replyIso now outcome s).1.persistedChat
        = some (s.chatHistory ++ [userTurn s.groqInput sentIso])
    ∧ (handleGroqChat sentIso replyIso now outcome s).1.notifications
        = addNotification now "groq" (chatFailureMessage outcome) s.notifications
    ∧ (handleGroqChat sentIso replyIso now outcome s).1.notifications.head?.map
          Notification.type
        = some "groq" := by
  match outcome with
  | .fail message =>
      refine ⟨?_, ?_, ?_, ?_, ?_⟩ <;>
        simp [handleGroqChat, hq, userTurn, chatFailureMessage, addNotification]
  | .ok data =>
      have hs : data.success = false := by
        simpa [isChatFailure] using hf
      refine ⟨?_, ?_, ?_, ?_, ?_⟩ <;>
        simp [handleGroqChat, hq, hs, userTurn, chatFailureMessage, addNotification]

/-- C2 witness: a `success: false` response at a concrete state leaves a
one-turn transcript. -/
theorem handleGroqChat_failure_spec_witness :
    (handleGroqChat "t0" "t1" 3
        (.ok { success := false, response := none, model := none,
               tokens_used := none, error := some "rate limited" })
        { groqInput := "hi", chatHistory := [], persistedChat := none,
          notifications := [], groqLoading := false }).1.chatHistory.length
      = 0 + 1 :=
  (handleGroqChat_failure_spec "t0" "t1" 3
      (.ok { success := false, response := none, model := none,
             tokens_used := none, error := some "rate limited" })
      { groqInput := "hi", chatHistory := [], persistedChat := none,
        notifications := [], groqLoading := false }
      (by decide) (by decide)).2.1

/-- C9: on an input that is empty or only whitespace (`!query.trim()` /
`!groqInput.trim()`), both handlers return before doing anything: the
state is returned unchanged, no request is issued, and in particular no
notification is pushed and no transcript, feed, result or input field
changes. -/
theorem blank_input_noop (now : Nat) (o1 : FetchOutcome DispatchResult)
    (sentIso replyIso : String) (o2 : FetchOutcome GroqData)
    (s : SubmitState) (c : ChatState)
    (h1 : jsTrim s.query = "") (h2 : jsTrim c.groqInput = "") :
    handleSubmit now o1 s = (s, { requestIssued := false, sched := [] })
    ∧ handleGroqChat sentIso replyIso now o2 c = (c, false) := by
  constructor
  · simp [handleSubmit, h1]
  · simp [handleGroqChat, h2]

/-- C9 witness: a whitespace-only command and an empty chat input leave
concrete states untouched. -/
theorem blank_input_noop_witness :
    handleSubmit 1 (.fail "unreachable")
        { query := "   ", response := none, notifications := [], loading := false }
      = ({ query := "   ", response := none, notifications := [], loading := false },
         { requestIssued := false, sched := [] })
    ∧ handleGroqChat "t0" "t1" 1 (.fail "unreachable")
        { groqInput := "", chatHistory := [], persistedChat := none,
          notifications := [], groqLoading := false }
      = ({ groqInput := "", chatHistory := [], persistedChat := none,
           notifications := [], groqLoading := false }, false) :=
  blank_input_noop 1 (.fail "unreachable") "t0" "t1" (.fail "unreachable")
    { query := "   ", response := none, notifications := [], loading := false }
    { groqInput := "", chatHistory := [], persistedChat := none,
      notifications := [], groqLoading := false }
    (by decide) (by decide)

/-- JavaScript `Array.prototype.slice(start, stop)`: negative indices
count from the end, indices are clamped to `[0, length]`, and the result
is the (possibly empty) sub-list between them — never an error. -/
def jsSlice {α : Type} (l : List α) (start stop : Int) : List α :=
  let len : Int := l.length
  let s := if start < 0 then max (len + start) 0 else min start len
  let e := if stop < 0 then max (len + stop) 0 else min stop len
  (l.drop s.toNat).take (e - s).toNat

/-- `itemsPerPage` from App.jsx. -/
def itemsPerPage : Nat := 5

/-- The slice `ContactView` renders:
`contacts.slice(startIndex, startIndex + itemsPerPage)` with
`startIndex = (contactPage - 1) * itemsPerPage`. -/
def contactViewSlice {α : Type} (contactPage : Int) (contacts : List α) : List α :=
  let startIndex := (contactPage - 1) * (itemsPerPage : Int)
  jsSlice contacts startIndex (startIndex + itemsPerPage)

/-- `totalPages` of the `Pagination` component:
`Math.ceil(totalItems / itemsPerPage)`. -/
def totalPages (totalItems per : Nat) : Nat := (totalItems + per - 1) / per

/-- One click on the `Pagination` component: the previous button is
disabled at page 1, the next button at `totalPages`, and the component
renders nothing (so no click is possible) when `totalPages ≤ 1`. -/
def paginationStep (totalItems per : Nat) (page : Int) (next : Bool) : Int :=
  let tp : Int := totalPages totalItems per
  if tp ≤ 1 then page
  else if next then (if page = tp then page else page + 1)
  else (if page = 1 then page else page - 1)

/-- `loadContacts` from App.jsx, restricted to the pagination-relevant
state: the contact list is replaced wholesale and `contactPage` is left
untouched (no clamp, no reset). -/
def loadContacts {α : Type} (newContacts : List α) (st : List α × Int) :
    List α × Int :=
  (newContacts, st.2)

/-- C5 counterexample: a reachable client state shows a silently empty
page.  With 12 contacts the user navigates to page 3 (valid, `totalPages
= 3`); a refresh then returns 5 contacts; the page is left at 3 and the
rendered slice is empty although the collection is not. -/
theorem contactView_stale_page_counterexample :
    paginationStep 12 5 (paginationStep 12 5 1 true) true = 3
    ∧ (loadContacts [0, 1, 2, 3, 4]
        ([0, 1, 2, 3, 4, 5, 6, 7, 8, 9, 10, 11], (3 : Int))).2 = 3
    ∧ (loadContacts [0, 1, 2, 3, 4]
        ([0, 1, 2, 3, 4, 5, 6, 7, 8, 9, 10, 11], (3 : Int))).1 ≠ []
    ∧ contactViewSlice 3 ([0, 1, 2, 3, 4] : List Nat) = [] := by
  refine ⟨?_, rfl, by decide, ?_⟩
  · decide
  · decide

/-- C5 (amended): with 12 items and page size 5, page 3 shows exactly 2
items; the pagination buttons keep navigation inside `[1, totalPages]`;
the slice is always a well-defined (possibly empty) list, never an
out-of-bounds access; but a refresh leaves the page index untouched, so
it is not clamped or reset when the collection shrinks. -/
theorem contactView_pagination_spec {α : Type} (l : List α) (h12 : l.length = 12) :
    (contactViewSlice 3 l).length = 2
    ∧ (∀ (totalItems : Nat) (page : Int) (next : Bool),
        1 ≤ page → page ≤ (totalPages totalItems 5 : Int) →
        1 ≤ paginationStep totalItems 5 page next
        ∧ paginationStep totalItems 5 page next ≤ (totalPages totalItems 5 : Int))
    ∧ (∀ (page : Int) (items : List α),
        (contactViewSlice page items).length ≤ items.length)
    ∧ (∀ (newItems : List α) (st : List α × Int),
        (loadContacts newItems st).2 = st.2) := by
  refine ⟨?_, ?_, ?_, fun _ _ => rfl⟩
  · simp only [contactViewSlice, jsSlice, itemsPerPage, h12]
    norm_num [h12]
    rfl
  · intro totalItems page next h1 h2
    simp only [paginationStep]
    split
    · omega
    · split
      · split <;> omega
      · split <;> omega
  · intro page items
    simp only [contactViewSlice, jsSlice]
    calc ((items.drop _).take _).length ≤ (items.drop _).length :=
          (List.length_take _ _).trans_le (Nat.min_le_right _ _)
      _ ≤ items.length := by
          rw [List.length_drop]; omega

/-- C5 witness: the amended theorem applied at a concrete 12-item list. -/
theorem contactView_pagination_spec_witness :
    (contactViewSlice 3 ([0, 1, 2, 3, 4, 5, 6, 7, 8, 9, 10, 11] : List Nat)).length = 2 :=
  (contactView_pagination_spec ([0, 1, 2, 3, 4, 5, 6, 7, 8, 9, 10, 11] : List Nat) rfl).1

/-- A JavaScript value as relevant to the envelope-unwrapping expressions
`(await res.json()).field || []` of `loadDashboardData`. -/
inductive JsVal where
  | undef
  | null
  | bool (b : Bool)
  | num (n : Int)
  | str (s : String)
  | arr (xs : List Nat)
deriving Repr, DecidableEq

/-- JavaScript truthiness. -/
def JsVal.truthy : JsVal → Bool
  | .undef => false
  | .null => false
  | .bool b => b
  | .num n => n != 0
  | .str s => s != ""
  | .arr _ => true

/-- The JavaScript `||` operator: the left operand when truthy, else the
right. -/
def jsOr (a b : JsVal) : JsVal := if a.truthy then a else b

/-- The seven parsed sub-response payloads of one `loadDashboardData`
batch.  For the five list-bearing envelopes the field holds the value of
the named property (`avatars`, `tasks`, `events`, `emails`, `contacts`),
with `.undef` when the property is absent. -/
structure DashboardResponses where
  context : JsVal
  avatars : JsVal
  tasks : JsVal
  events : JsVal
  weather : JsVal
  emails : JsVal
  contacts : JsVal
deriving Repr, DecidableEq

/-- The collection state `loadDashboardData` writes. -/
structure DashboardState where
  context : JsVal
  avatars : JsVal
  tasks : JsVal
  events : JsVal
  weather : JsVal
  emails : JsVal
  contacts : JsVal
deriving Repr, DecidableEq

/-- `loadDashboardData` from App.jsx on a batch in which every sub-fetch
parsed: collections are replaced wholesale, each list field unwrapped as
`(await res.json()).field || []`; `context` and `weather` are stored
as-is. -/
def loadDashboardData (r : DashboardResponses) : DashboardState :=
  { context := r.context
    avatars := jsOr r.avatars (.arr [])
    tasks := jsOr r.tasks (.arr [])
    events := jsOr r.events (.arr [])
    weather := r.weather
    emails := jsOr r.emails (.arr [])
    contacts := jsOr r.contacts (.arr []) }

/-- C6 counterexample: a well-formed sub-response whose named field is
malformed but truthy (here the string `"oops"` in place of the `tasks`
array) is stored unchanged by `tasks || []`, not replaced by the empty
sequence. -/
theorem loadDashboard_malformed_field_counterexample :
    (loadDashboardData
        { context := .null, avatars := .arr [], tasks := .str "oops",
          events := .arr [1], weather := .null, emails := .arr [],
          contacts := .arr [] }).tasks
      = JsVal.str "oops"
    ∧ (loadDashboardData
        { context := .null, avatars := .arr [], tasks := .str "oops",
          events := .arr [1], weather := .null, emails := .arr [],
          contacts := .arr [] }).tasks
      ≠ JsVal.arr [] := by
  constructor
  · decide
  · decide

/-- C6 (amended): whichever of the five list-bearing sub-responses lacks
its named collection field — or carries a falsy value (`undefined`,
`null`, `false`, `0`, `""`) — that collection is set to the empty
sequence; and every stored value is computed from its own sub-response
only, so two batches that agree on one sub-response's field agree on the
corresponding stored collection regardless of every other sub-response. -/
theorem loadDashboard_missing_field_spec (r r' : DashboardResponses) :
    (r.avatars.truthy = false → (loadDashboardData r).avatars = JsVal.arr [])
    ∧ (r.tasks.truthy = false → (loadDashboardData r).tasks = JsVal.arr [])
    ∧ (r.events.truthy = false → (loadDashboardData r).events = JsVal.arr [])
    ∧ (r.emails.truthy = false → (loadDashboardData r).emails = JsVal.arr [])
    ∧ (r.contacts.truthy = false → (loadDashboardData r).contacts = JsVal.arr [])
    ∧ (r.context = r'.context →
        (loadDashboardData r).context = (loadDashboardData r').context)
    ∧ (r.avatars = r'.avatars →
        (loadDashboardData r).avatars = (loadDashboardData r').avatars)
    ∧ (r.tasks = r'.tasks →
        (loadDashboardData r).tasks = (loadDashboardData r').tasks)
    ∧ (r.events = r'.events →
        (loadDashboardData r).events = (loadDashboardData r').events)
    ∧ (r.weather = r'.weather →
        (loadDashboardData r).weather = (loadDashboardData r').weather)
    ∧ (r.emails = r'.emails →
        (loadDashboardData r).emails = (loadDashboardData r').emails)
    ∧ (r.contacts = r'.contacts →
        (loadDashboardData r).contacts = (loadDashboardData r').contacts) := by
  refine ⟨?_, ?_, ?_, ?_, ?_, ?_, ?_, ?_, ?_, ?_, ?_, ?_⟩ <;>
    intro h <;> simp [loadDashboardData, jsOr, h]

/-- C6 witness: a batch whose `avatars` envelope lacks the field yields an
empty avatar collection, and the `contacts` collection agrees with any
batch carrying the same `contacts` field. -/
theorem loadDashboard_missing_field_spec_witness :
    (loadDashboardData
        { context := .null, avatars := .undef, tasks := .arr [7],
          events := .arr [1], weather := .null, emails := .arr [],
          contacts := .arr [3] }).avatars
      = JsVal.arr []
    ∧ (loadDashboardData
        { context := .null, avatars := .undef, tasks := .arr [7],
          events := .arr [1], weather := .null, emails := .arr [],
          contacts := .arr [3] }).contacts
      = (loadDashboardData
          { context := .str "c", avatars := .arr [2], tasks := .undef,
            events := .null, weather := .num 4, emails := .bool false,
            contacts := .arr [3] }).contacts :=
  ⟨(loadDashboard_missing_field_spec
      { context := .null, avatars := .undef, tasks := .arr [7],
        events := .arr [1], weather := .null, emails := .arr [],
        contacts := .arr [3] }
      { context := .str "c", avatars := .arr [2], tasks := .undef,
        events := .null, weather := .num 4, emails := .bool false,
        contacts := .arr [3] }).1 (by decide),
   (loadDashboard_missing_field_spec
      { context := .null, avatars := .undef, tasks := .arr [7],
        events := .arr [1], weather := .null, emails := .arr [],
        contacts := .arr [3] }
      { context := .str "c", avatars := .arr [2], tasks := .undef,
        events := .null, weather := .num 4, emails := .bool false,
        contacts := .arr [3] }).2.2.2.2.2.2.2.2.2.2.2 (by decide)⟩

/-- `localStorage.removeItem(key)` on a key-value store. -/
def removeItem (key : String) (storage : String → Option String) :
    String → Option String :=
  fun k => if k = key then none else storage k

/-- The state touched by the Sign Out button of `ProfilePanel`. -/
structure AuthUiState where
  storage : String → Option String
  isAuthenticated : Bool

/-- The Sign Out click handler from `ProfilePanel`:
`localStorage.removeItem('pos_auth'); localStorage.removeItem('pos_notifications');
setIsAuthenticated(false)`. -/
def signOut (st : AuthUiState) : AuthUiState :=
  { storage := removeItem "pos_notifications" (removeItem "pos_auth" st.storage),
    isAuthenticated := false }

/-- C10: signing out clears the authenticated flag and removes exactly the
persisted auth record and notification feed: the `pos_chat_history` key —
and any key other than `pos_auth` and `pos_notifications` — is left
unchanged in durable storage. -/
theorem signOut_frame_spec (st : AuthUiState) :
    (signOut st).isAuthenticated = false
    ∧ (signOut st).storage "pos_auth" = none
    ∧ (signOut st).storage "pos_notifications" = none
    ∧ (signOut st).storage "pos_chat_history" = st.storage "pos_chat_history"
    ∧ ∀ k : String, k ≠ "pos_auth" → k ≠ "pos_notifications" →
        (signOut st).storage k = st.storage k := by
  refine ⟨rfl, ?_, ?_, ?_, ?_⟩
  · simp [signOut, removeItem]
  · simp [signOut, removeItem]
  · simp [signOut, removeItem]
  · intro k h1 h2
    simp [signOut, removeItem, h1, h2]

/-- C10 witness: the persisted chat transcript of a concrete store
survives sign-out. -/
theorem signOut_frame_spec_witness :
    (signOut
        { storage := fun k => if k = "pos_chat_history" then some "history" else some "x",
          isAuthenticated := true }).storage "pos_chat_history"
      = some "history" := by
  have h :=
    (signOut_frame_spec
        { storage := fun k => if k = "pos_chat_history" then some "history" else some "x",
          isAuthenticated := true }).2.2.2.1
  rw [h]
  simp

end PosAgent
